import Mathlib

/-!
Verification of the contact-form API server (Express/Node) against its
specification.  The repository holds two near-identical implementations of
the same server: `src/server.js` and an unnamed variant
(`src/unnamed/part_000`).  Definitions below are shallow embeddings of the
JavaScript source; where the two variants differ, both are embedded and the
variant from `src/unnamed/part_000` carries the suffix `Alt`.

Platform functions the source calls (`String.prototype.trim`,
`String.prototype.toLowerCase`, `substring`, the WHATWG `URL` constructor,
JavaScript truthiness) are modelled explicitly; each model's doc comment
states its scope.
-/

namespace ContactApi

/-- Whitespace class of JavaScript's `\s` (and of `String.prototype.trim`):
space, tab, line terminators, and the Unicode space separators. -/
def isWsChar (c : Char) : Bool :=
  c = ' ' || c = '\t' || c = '\n' || c = '\r' || c = '\u000b' || c = '\u000c' ||
  c = '\u00A0' || c = '\u1680' || c = '\u2000' || c = '\u2001' || c = '\u2002' ||
  c = '\u2003' || c = '\u2004' || c = '\u2005' || c = '\u2006' || c = '\u2007' ||
  c = '\u2008' || c = '\u2009' || c = '\u200A' || c = '\u2028' || c = '\u2029' ||
  c = '\u202F' || c = '\u205F' || c = '\u3000' || c = '\uFEFF'

/-- The ASCII case-map table. -/
def upperLower : List (Char × Char) :=
  [('A', 'a'), ('B', 'b'), ('C', 'c'), ('D', 'd'), ('E', 'e'), ('F', 'f'),
   ('G', 'g'), ('H', 'h'), ('I', 'i'), ('J', 'j'), ('K', 'k'), ('L', 'l'),
   ('M', 'm'), ('N', 'n'), ('O', 'o'), ('P', 'p'), ('Q', 'q'), ('R', 'r'),
   ('S', 's'), ('T', 't'), ('U', 'u'), ('V', 'v'), ('W', 'w'), ('X', 'x'),
   ('Y', 'y'), ('Z', 'z')]

/-- ASCII lower-casing of a single character, the fragment of JavaScript's
`String.prototype.toLowerCase` exercised by this server (all inputs the
claims touch are ASCII). -/
def lowerChar (c : Char) : Char := (upperLower.lookup c).getD c

/-- Strip leading and trailing JavaScript whitespace from a character list
(model of `String.prototype.trim`). -/
def trimList (l : List Char) : List Char :=
  ((l.dropWhile isWsChar).reverse.dropWhile isWsChar).reverse

/-- Model of `s.trim()`. -/
def jsTrim (s : String) : String := ⟨trimList s.data⟩

/-- Model of `s.substring(0, n)` (also `s.slice(0, n)`): the first `n`
characters. -/
def jsSubstr0 (n : Nat) (s : String) : String := ⟨s.data.take n⟩

/-- Model of `s.toLowerCase()` on the ASCII fragment. -/
def jsToLower (s : String) : String := ⟨s.data.map lowerChar⟩

/-- Split a character list at every occurrence of a separator (model of
`String.prototype.split` with a one-character separator; the result for
the empty input is one empty segment, as in JavaScript). -/
def splitChar (sep : Char) : List Char → List (List Char)
  | [] => [[]]
  | c :: t =>
    match splitChar sep t with
    | [] => [[c]]
    | h :: rest => if c = sep then [] :: h :: rest else (c :: h) :: rest

/-- The lines of a string (its segments between newlines). -/
def linesOf (s : String) : List String := (splitChar '\n' s.data).map String.mk

/-- List-prefix test. -/
def isPrefList : List Char → List Char → Bool
  | [], _ => true
  | _ :: _, [] => false
  | a :: t1, b :: t2 => a = b && isPrefList t1 t2

/-- Model of `String.prototype.startsWith` / the regexes `/^pat/`. -/
def strStarts (pre s : String) : Bool := isPrefList pre.data s.data

/-- Membership of a string in a list of strings (model of
`Array.prototype.includes`). -/
def memStr (o : String) : List String → Bool
  | [] => false
  | x :: t => x = o || memStr o t

/-- Decimal digit character. -/
def digitChar (n : Nat) : Char :=
  if n = 0 then '0' else if n = 1 then '1' else if n = 2 then '2' else
  if n = 3 then '3' else if n = 4 then '4' else if n = 5 then '5' else
  if n = 6 then '6' else if n = 7 then '7' else if n = 8 then '8' else '9'

/-- Decimal digits of a natural number, with explicit recursion fuel so
the definition is structural. -/
def natDigits : Nat → Nat → List Char
  | 0, _ => []
  | _, 0 => []
  | f + 1, n => natDigits f (n / 10) ++ [digitChar (n % 10)]

/-- Decimal rendering of a natural number (sufficient fuel for any number
below 10^20). -/
def natStr (n : Nat) : String := if n = 0 then "0" else ⟨natDigits 20 n⟩

/-- Decimal rendering of an integer. -/
def intStr : Int → String
  | .ofNat n => natStr n
  | .negSucc n => "-" ++ natStr (n + 1)

/-- Join strings with newlines (model of `Array.prototype.join("\n")`). -/
def joinNl : List String → String
  | [] => ""
  | [x] => x
  | x :: y :: t => x ++ "\n" ++ joinNl (y :: t)

/-- JSON values as delivered by `express.json()` (`req.body` and its
fields).  Numbers are modelled as integers: no claim depends on
non-integral numerics. -/
inductive JVal where
  | jNull : JVal
  | jBool : Bool → JVal
  | jNum : Int → JVal
  | jStr : String → JVal
  | jArr : List JVal → JVal
  | jObj : List (String × JVal) → JVal

open JVal

/-- JavaScript truthiness of a defined value: `null`, `false`, `0` and `""`
are falsy; every object and array is truthy. -/
def truthy : JVal → Bool
  | jNull => false
  | jBool b => b
  | jNum n => n != 0
  | jStr s => s != ""
  | jArr _ => true
  | jObj _ => true

/-- Truthiness of a possibly-`undefined` value (`none` = `undefined`). -/
def truthyO : Option JVal → Bool
  | none => false
  | some v => truthy v

/-- Property access `obj[k]` / destructuring `const {k} = obj`: yields
`undefined` (`none`) when the field is missing or the value is not an
object. -/
def fieldGet (k : String) : List (String × JVal) → Option JVal
  | [] => none
  | (k2, v) :: t => if k2 = k then some v else fieldGet k t

/-- Property access continued: lookup in an object's field list. -/
def getField : JVal → String → Option JVal
  | jObj fields, k => fieldGet k fields
  | _, _ => none

/-- JavaScript's `.length` property as the source consults it: defined for
strings and arrays, `undefined` otherwise.  (String length is measured in
characters; all claimed inputs are ASCII, where this agrees with JS's
UTF-16 code-unit count.) -/
def jsLength : JVal → Option Nat
  | jStr s => some s.length
  | jArr l => some l.length
  | _ => none

/-- String coercion `String(v)` as used by template literals and the `URL`
constructor.  Arrays are abstracted to the empty string (no claim feeds an
array where a string coercion matters). -/
def jsToString : JVal → String
  | jNull => "null"
  | jBool true => "true"
  | jBool false => "false"
  | jNum n => intStr n
  | jStr s => s
  | jArr _ => ""
  | jObj _ => "[object Object]"

/-- String coercion of a possibly-`undefined` value. -/
def jsToStringO : Option JVal → String
  | none => "undefined"
  | some v => jsToString v

/- ------------------------------------------------------------------
Validation helpers (src/server.js lines 88..114; src/unnamed/part_000
lines 118..151).
------------------------------------------------------------------ -/

/-- One character of the regex class `[^\s@]`. -/
def emailAtomChar (c : Char) : Bool := !(isWsChar c) && c ≠ '@'

/-- Match of the anchored regex `/^[^\s@]+@[^\s@]+\.[^\s@]+$/`: exactly one
`@`; a nonempty `@`-free whitespace-free local part; and a remainder that
is whitespace-free and contains a `.` that is neither its first nor its
last character. -/
def emailShape (s : String) : Bool :=
  match splitChar '@' s.data with
  | [a, rest] =>
    !a.isEmpty && a.all emailAtomChar && rest.all emailAtomChar &&
    ((rest.drop 1).dropLast.contains '.')
  | _ => false

/-- Embedding of `isValidEmail` (identical in both variants): the value is
a string matching the coarse email regex with total length at most 254. -/
def isValidEmail (v : Option JVal) : Bool :=
  match v with
  | some (jStr s) => emailShape s && s.length ≤ 254
  | _ => false

/-- Result of parsing a URL: the `protocol` (scheme with trailing colon)
and `hostname` exactly as the WHATWG `URL` getters report them. -/
structure UrlParts where
  protocol : String
  hostname : String

/-- Take the part of an authority after its last `@` (the host[:port]
part; anything before the last `@` is userinfo). -/
def afterLastAt (l : List Char) : List Char :=
  (l.reverse.takeWhile (fun c => c ≠ '@')).reverse

/-- Characters allowed in a URL scheme after its initial letter. -/
def schemeChar (c : Char) : Bool :=
  c.isAlphanum || c = '+' || c = '-' || c = '.'

/-- Schemes the WHATWG standard treats as special and whose host is parsed
from the authority even without explicit `//` (the `file` scheme is left
to the generic branch, which matches its empty-host behaviour for the
inputs of interest). -/
def specialSchemes : List String := ["http", "https", "ws", "wss", "ftp"]

/-- Model of the WHATWG URL parser (Node's `new URL(...)` with no base),
restricted to what `isValidUrl` consults: success/failure of parsing an
absolute URL, the `protocol` getter, and the `hostname` getter.  Faithful
points this model keeps: the scheme must start with a letter and end at a
colon; special schemes require a nonempty host; userinfo and ports are
stripped from the hostname; hostnames are lower-cased; a bracketed IPv6
host is reported by the `hostname` getter WITH its square brackets (the
URL standard serializes an IPv6 host as `[` + address + `]`, and the
`hostname` getter returns the serialized host).  Out of scope: IDNA,
numeric IPv4 normalisation, percent-decoding, and port/character
validation. -/
def parseURL (s : String) : Option UrlParts :=
  let l0 := s.data.filter (fun c => c ≠ '\t' && c ≠ '\n' && c ≠ '\r')
  let l := ((l0.dropWhile (fun c => c ≤ ' ')).reverse.dropWhile (fun c => c ≤ ' ')).reverse
  match l with
  | [] => none
  | c0 :: _ =>
    if !c0.isAlpha then none
    else
      let sch := l.takeWhile schemeChar
      match l.drop sch.length with
      | ':' :: r =>
        let scheme : String := ⟨sch.map lowerChar⟩
        if memStr scheme specialSchemes then
          let r2 := r.dropWhile (fun c => c = '/' || c = '\\')
          let auth := r2.takeWhile (fun c => c ≠ '/' && c ≠ '\\' && c ≠ '?' && c ≠ '#')
          let hostport := afterLastAt auth
          match hostport with
          | '[' :: t =>
            if t.contains ']' then
              some ⟨scheme ++ ":", ⟨('[' :: (t.takeWhile (fun c => c ≠ ']')) ++ [']']).map lowerChar⟩⟩
            else none
          | _ =>
            let host := hostport.takeWhile (fun c => c ≠ ':')
            if host.isEmpty then none
            else some ⟨scheme ++ ":", ⟨host.map lowerChar⟩⟩
        else
          match r with
          | '/' :: '/' :: r2 =>
            let auth := r2.takeWhile (fun c => c ≠ '/' && c ≠ '\\' && c ≠ '?' && c ≠ '#')
            let hostport := afterLastAt auth
            match hostport with
            | '[' :: t =>
              if t.contains ']' then
                some ⟨scheme ++ ":", ⟨('[' :: (t.takeWhile (fun c => c ≠ ']')) ++ [']']).map lowerChar⟩⟩
              else none
            | _ =>
              some ⟨scheme ++ ":", ⟨(hostport.takeWhile (fun c => c ≠ ':')).map lowerChar⟩⟩
          | _ => some ⟨scheme ++ ":", ""⟩
      | _ => none

/-- The private-host block list of `src/server.js` (lines 101..108): the
regexes `/^localhost$/i`, `/^127\./`, `/^10\./`, `/^192\.168\./`,
`/^172\.(1[6-9]|2[0-9]|3[01])\./` and `/^::1$/` applied to the parsed
hostname. -/
def rfc1918Middle : List String :=
  ["172.16.", "172.17.", "172.18.", "172.19.", "172.20.", "172.21.",
   "172.22.", "172.23.", "172.24.", "172.25.", "172.26.", "172.27.",
   "172.28.", "172.29.", "172.30.", "172.31."]

def isPrivateHost (h : String) : Bool :=
  jsToLower h = "localhost" || strStarts "127." h || strStarts "10." h ||
  strStarts "192.168." h ||
  rfc1918Middle.any (fun p => strStarts p h) ||
  h = "::1"

/-- The private-host block list of `src/unnamed/part_000` (lines 134..141):
same as `isPrivateHost` except the IPv4 loopback pattern is the exact
match `/^127\.0\.0\.1$/` instead of the prefix `/^127\./`. -/
def isPrivateHostAlt (h : String) : Bool :=
  jsToLower h = "localhost" || h = "127.0.0.1" || h = "::1" ||
  strStarts "192.168." h || strStarts "10." h ||
  rfc1918Middle.any (fun p => strStarts p h)

/-- Embedding of `isValidUrl` from `src/server.js` (lines 96..114) on an
already-coerced string: parse with `new URL`, require protocol `http:` or
`https:`, and reject hostnames matching the private patterns; any parse
failure yields `false` via the `try`/`catch`. -/
def isValidUrlStr (s : String) : Bool :=
  match parseURL s with
  | none => false
  | some u =>
    if !(u.protocol = "http:" || u.protocol = "https:") then false
    else !isPrivateHost u.hostname

/-- Embedding of `isValidUrl` from `src/unnamed/part_000` (lines 125..151). -/
def isValidUrlStrAlt (s : String) : Bool :=
  match parseURL s with
  | none => false
  | some u =>
    if !(u.protocol = "http:" || u.protocol = "https:") then false
    else !isPrivateHostAlt u.hostname

/-- `isValidUrl` applied to a raw request field: the `URL` constructor
coerces its argument to a string first. -/
def isValidUrl (v : Option JVal) : Bool := isValidUrlStr (jsToStringO v)

/-- `isValidUrl` of the unnamed variant applied to a raw field. -/
def isValidUrlAlt (v : Option JVal) : Bool := isValidUrlStrAlt (jsToStringO v)

/- ------------------------------------------------------------------
Request validation middleware (src/server.js lines 116..137;
src/unnamed/part_000 lines 86..116).
------------------------------------------------------------------ -/

/-- Outcome of one synchronous validation step: a thrown `TypeError`
(`vthrow`), an early `res.status(400).json({error: msg})` (`vfail msg`),
or fall-through to the next check / `next()` (`vok`). -/
inductive VRes where
  | vthrow : VRes
  | vfail : String → VRes
  | vok : VRes

/-- A result is ordinary when it is a response or a pass, not a thrown
exception. -/
def isOrdinary : VRes → Bool
  | .vthrow => false
  | _ => true

/-- Sequencing of validation steps: short-circuit on a throw or a 400. -/
def vthen (r : VRes) (k : Unit → VRes) : VRes :=
  match r with
  | .vok => k ()
  | x => x

/-- The expression `message || description || ""` shared by the validator
and the handler: the `message` value when truthy, else the `description`
value when truthy, else the empty string. -/
def finalMessageOf (b : JVal) : JVal :=
  match getField b "message" with
  | some v =>
    if truthy v then v
    else match getField b "description" with
         | some w => if truthy w then w else jStr ""
         | none => jStr ""
  | none =>
    match getField b "description" with
    | some w => if truthy w then w else jStr ""
    | none => jStr ""

/-- The expression `req.body || {}` at the head of the validator. -/
def normBody (b : JVal) : JVal := if truthy b then b else jObj []

/-- Name check of `src/server.js` line 120:
`if (!name || name.trim().length < 2 || name.length > 100)`.  A truthy
non-string `name` reaches `name.trim()` and throws
`TypeError: name.trim is not a function`. -/
def nameStep (v : Option JVal) : VRes :=
  if truthyO v = false then .vfail "Invalid name"
  else match v with
    | some (jStr s) =>
      if (jsTrim s).length < 2 || s.length > 100 then .vfail "Invalid name" else .vok
    | _ => .vthrow

/-- Email check of `src/server.js` line 124. -/
def emailStep (v : Option JVal) : VRes :=
  if !isValidEmail v then .vfail "Invalid email" else .vok

/-- URL check of `src/server.js` line 128. -/
def urlStep (v : Option JVal) : VRes :=
  if !isValidUrl v then .vfail "Invalid URL" else .vok

/-- Message check of `src/server.js` line 132:
`if (finalMessage && finalMessage.length > 500)`.  For a truthy value with
no `.length` (a number, boolean or plain object) the comparison is
`undefined > 500`, which is `false` in JavaScript. -/
def msgStep (fm : JVal) : VRes :=
  if truthy fm && (jsLength fm).getD 0 > 500 then .vfail "Message too long" else .vok

/-- Embedding of `validateContactRequest` from `src/server.js`
(lines 116..137). -/
def validateContactRequest (body : JVal) : VRes :=
  let b := normBody body
  vthen (nameStep (getField b "name")) fun _ =>
  vthen (emailStep (getField b "email")) fun _ =>
  vthen (urlStep (getField b "url")) fun _ =>
  msgStep (finalMessageOf b)

/-- Name check of `src/unnamed/part_000` lines 91..96: a `typeof`
guard precedes the `trim` call, so no input throws; the two bounds carry
distinct messages. -/
def nameStepAlt (v : Option JVal) : VRes :=
  if truthyO v = false then .vfail "Name must be at least 2 characters"
  else match v with
    | some (jStr s) =>
      if (jsTrim s).length < 2 then .vfail "Name must be at least 2 characters"
      else if s.length > 100 then .vfail "Name must be less than 100 characters"
      else .vok
    | _ => .vfail "Name must be at least 2 characters"

/-- Message check of `src/unnamed/part_000` lines 109..113: guarded by
`typeof finalMessage === "string"`. -/
def msgStepAlt (fm : JVal) : VRes :=
  match fm with
  | jStr s => if s ≠ "" && s.length > 500 then .vfail "Message must be less than 500 characters" else .vok
  | _ => .vok

/-- Embedding of `validateContactRequest` from `src/unnamed/part_000`
(lines 86..116). -/
def validateContactRequestAlt (body : JVal) : VRes :=
  let b := normBody body
  vthen (nameStepAlt (getField b "name")) fun _ =>
  vthen (if !isValidEmail (getField b "email") then .vfail "Valid email is required" else .vok) fun _ =>
  vthen (if !isValidUrlAlt (getField b "url") then .vfail "Valid web application URL is required" else .vok) fun _ =>
  msgStepAlt (finalMessageOf b)

/- ------------------------------------------------------------------
Sanitization (src/server.js lines 155..159).
------------------------------------------------------------------ -/

/-- Handler sanitization of the name: `name.trim().substring(0, 100)`. -/
def sanitizeName (s : String) : String := jsSubstr0 100 (jsTrim s)

/-- Handler sanitization of the email: `email.trim().toLowerCase()`. -/
def sanitizeEmail (s : String) : String := jsToLower (jsTrim s)

/-- Handler sanitization of the message on a string input:
`finalMessage ? finalMessage.trim().substring(0, 500) : ""`. -/
def sanitizeMsgStr (s : String) : String :=
  if s ≠ "" then jsSubstr0 500 (jsTrim s) else ""

/- ------------------------------------------------------------------
Rate limiting.  The two `express-rate-limit` instances are configured in
src/server.js lines 70..83; the fixed-window counter algorithm itself
lives in the library, outside this repository.
------------------------------------------------------------------ -/

/-- Per-key fixed-window state: window start (ms) and hit count. -/
abbrev RLState := List (String × Nat × Nat)

/-- Look up a key's window entry. -/
def rlFind (key : String) : RLState → Option (Nat × Nat)
  | [] => none
  | (k, s, c) :: rest => if k = key then some (s, c) else rlFind key rest

/-- Replace (or create) a key's window entry. -/
def rlUpdate (key : String) (s c : Nat) : RLState → RLState
  | [] => [(key, s, c)]
  | (k, s0, c0) :: rest =>
    if k = key then (key, s, c) :: rest else (k, s0, c0) :: rlUpdate key s c rest

/-- Modelled from the spec: the fixed-window counter of
`express-rate-limit` (configured in the source, implemented in the
library): look up or create the key's window; if the current time is
outside the stored window, reset the count and start a new window;
increment the count; the request is allowed when the count does not
exceed `max`. -/
def rlStep (windowMs maxHits now : Nat) (key : String) (st : RLState) :
    Bool × RLState :=
  match rlFind key st with
  | none => (1 ≤ maxHits, rlUpdate key now 1 st)
  | some (s, c) =>
    if s + windowMs ≤ now then (1 ≤ maxHits, rlUpdate key now 1 st)
    else (c + 1 ≤ maxHits, rlUpdate key s (c + 1) st)

/- ------------------------------------------------------------------
HTTP pipeline (src/server.js lines 44..233).
------------------------------------------------------------------ -/

/-- The fixed CORS allow-list (src/server.js lines 45..50). -/
def allowedOrigins : List String :=
  ["https://jalwan.app", "https://www.jalwan.app",
   "http://localhost:3000", "http://localhost:3001"]

/-- Origin-guard decision (src/server.js lines 52..58): permit when the
`Origin` header is absent or on the allow-list. -/
def corsAllows (origin : Option String) : Bool :=
  match origin with
  | none => true
  | some o => memStr o allowedOrigins

/-- An inbound HTTP request as the handlers consult it. -/
structure Request where
  method : String
  path : String
  origin : Option String
  xff : Option String
  ip : String
  userAgent : Option String
  body : JVal

/-- An HTTP response: status code and JSON (or plain-text, as `jStr`)
body. -/
structure Response where
  status : Nat
  body : JVal

/-- The message handed to `transporter.sendMail` (src/server.js
lines 200..210). -/
structure OutMessage where
  fromAddr : String
  toAddr : String
  replyTo : String
  subject : String
  text : String

/-- SMTP-related environment configuration (an absent variable is `none`;
a set-but-empty variable is falsy in the source's checks, handled by
`optTruthy`). -/
structure Config where
  smtpHost : Option String
  smtpUser : Option String
  smtpPass : Option String
  toEmail : Option String
  fromEmail : Option String

/-- Truthiness of an optional environment string. -/
def optTruthy : Option String → Bool
  | none => false
  | some s => s ≠ ""

/-- The check of src/server.js lines 175..180: some required SMTP setting
is missing. -/
def requiredConfigMissing (cfg : Config) : Bool :=
  !optTruthy cfg.smtpHost || !optTruthy cfg.smtpUser ||
  !optTruthy cfg.smtpPass || !optTruthy cfg.toEmail

/-- The two limiter states of the process. -/
structure SystemState where
  globalRl : RLState
  contactRl : RLState

/-- Result of dispatching one request: a response (with the list of
messages handed to the relay, the number of network calls made to it, and
the updated limiter state), or a crash: the `async` handler threw before
responding, a rejected promise Express 4 does not catch, so no response is
ever sent. -/
inductive AppResult where
  | resp : Response → List OutMessage → Nat → SystemState → AppResult
  | crashed : SystemState → AppResult

/-- Messages handed to the relay. -/
def sendsOf : AppResult → List OutMessage
  | .resp _ sent _ _ => sent
  | .crashed _ => []

/-- Network calls made to the SMTP relay (`verify` and `sendMail` each
count as one). -/
def netCallsOf : AppResult → Nat
  | .resp _ _ n _ => n
  | .crashed _ => 0

/-- Status of the response, when one was sent. -/
def statusOf : AppResult → Option Nat
  | .resp r _ _ _ => some r.status
  | .crashed _ => none

/-- Body of the response, when one was sent. -/
def bodyOf : AppResult → Option JVal
  | .resp r _ _ _ => some r.body
  | .crashed _ => none

/-- Limiter state after the request. -/
def stateOf : AppResult → SystemState
  | .resp _ _ _ st => st
  | .crashed st => st

/-- Model of `getClientIp` (src/server.js lines 17..23): first entry of a
truthy `x-forwarded-for` header, trimmed; else `req.ip`. -/
def getClientIp (r : Request) : String :=
  match r.xff with
  | some s => if s ≠ "" then jsTrim ⟨(splitChar ',' s.data).headD []⟩ else r.ip
  | none => r.ip

/-- Rendering of `new Date().toISOString()`: an injective textual image of
the millisecond clock (the claims never inspect the timestamp's format,
only that the current clock value appears). -/
def isoString (now : Nat) : String := natStr now

/-- The `/health` response body of `src/server.js` line 141: note the
field is named `time`. -/
def healthBody (now : Nat) : JVal :=
  jObj [("status", jStr "ok"), ("time", jStr (isoString now))]

/-- The `/health` response body of `src/unnamed/part_000` line 155, whose
field is named `timestamp`. -/
def healthBodyAlt (now : Nat) : JVal :=
  jObj [("status", jStr "ok"), ("timestamp", jStr (isoString now))]

/-- The email body lines of src/server.js lines 161..173: the array is
passed through `.filter(Boolean)`, which drops the `null` entry for an
empty message AND the literal `""` separator line, then joined with
newlines. -/
def emailBodyLines (sn se urlRaw sm cip ua nowIso : String) : List String :=
  (["Name: " ++ sn, "Email: " ++ se, "Web App URL: " ++ urlRaw,
    (if sm ≠ "" then "Message: " ++ sm else ""), "", "---- META ----",
    "IP Address: " ++ cip, "User-Agent: " ++ ua,
    "Submitted At: " ++ nowIso]).filter (fun l => l ≠ "")

/-- A validated string field read back in the handler (after validation
passed, `name` and `email` are guaranteed to be strings). -/
def asStr (v : Option JVal) : String :=
  match v with
  | some (jStr s) => s
  | _ => ""

/-- Handler sanitization of the message value: throws (`none`) when
`finalMessage` is truthy but has no `trim` method. -/
def msgSanitize (fm : JVal) : Option String :=
  if truthy fm then
    match fm with
    | jStr s => some (sanitizeMsgStr s)
    | _ => none
  else some ""

/-- The mail stage of the `/contact` handler (src/server.js
lines 148..219): sanitize, build the body, check configuration, then
verify and send through the relay.  `verifyOk`/`sendOk` model the
external relay's behaviour. -/
def mailStage (cfg : Config) (verifyOk sendOk : Bool) (now : Nat)
    (req : Request) (st : SystemState) : AppResult :=
  let b := req.body
  match msgSanitize (finalMessageOf b) with
  | none => .crashed st
  | some sm =>
    let sn := sanitizeName (asStr (getField b "name"))
    let se := sanitizeEmail (asStr (getField b "email"))
    let cip := getClientIp req
    let ua := match req.userAgent with
              | some u => if u ≠ "" then u else "Unknown"
              | none => "Unknown"
    let lines := emailBodyLines sn se (jsToStringO (getField b "url")) sm cip ua (isoString now)
    if requiredConfigMissing cfg then
      .resp ⟨500, jObj [("error", jStr "Email not configured")]⟩ [] 0 st
    else if !verifyOk then
      .resp ⟨503, jObj [("error", jStr "Unable to send message")]⟩ [] 1 st
    else if !sendOk then
      .resp ⟨503, jObj [("error", jStr "Unable to send message")]⟩ [] 2 st
    else
      .resp ⟨200, jObj [("success", jBool true)]⟩
        [{ fromAddr := if optTruthy cfg.fromEmail then cfg.fromEmail.getD "" else cfg.smtpUser.getD ""
           toAddr := cfg.toEmail.getD ""
           replyTo := se
           subject := "[Jalwan] New Contact from " ++ sn
           text := joinNl lines }] 2 st

/-- The `/contact` route (src/server.js lines 144..220): contact limiter,
then validation, then the mail stage.  A `TypeError` thrown synchronously
inside the validator middleware is caught by Express and lands in the
error middleware (src/server.js lines 227..233), whose message is not the
CORS marker, hence the generic 500. -/
def contactRoute (cfg : Config) (verifyOk sendOk : Bool) (now : Nat)
    (req : Request) (st : SystemState) : AppResult :=
  let r := rlStep 3600000 3 now (getClientIp req) st.contactRl
  let st2 : SystemState := ⟨st.globalRl, r.2⟩
  if !r.1 then
    .resp ⟨429, jStr "Too many contact requests, try again in 1 hour"⟩ [] 0 st2
  else
    match validateContactRequest req.body with
    | .vthrow => .resp ⟨500, jObj [("error", jStr "Internal server error")]⟩ [] 0 st2
    | .vfail m => .resp ⟨400, jObj [("error", jStr m)]⟩ [] 0 st2
    | .vok => mailStage cfg verifyOk sendOk now req st2

/-- Route dispatch (src/server.js lines 140..225): the GET `/health`
route, the POST `/contact` route, and the 404 fallback. -/
def routeDispatch (cfg : Config) (verifyOk sendOk : Bool) (now : Nat)
    (req : Request) (st : SystemState) : AppResult :=
  if req.method = "GET" && req.path = "/health" then
    .resp ⟨200, healthBody now⟩ [] 0 st
  else if req.method = "POST" && req.path = "/contact" then
    contactRoute cfg verifyOk sendOk now req st
  else
    .resp ⟨404, jObj [("error", jStr "Endpoint not found")]⟩ [] 0 st

/-- Everything after the origin guard: the global limiter (which skips the
health path, src/server.js line 75) and the routes.  The global limiter's
key is `req.ip` (the library default) and its denial body is the library's
stock message. -/
def appAfterCors (cfg : Config) (verifyOk sendOk : Bool) (now : Nat)
    (req : Request) (st : SystemState) : AppResult :=
  if req.path = "/health" then
    routeDispatch cfg verifyOk sendOk now req st
  else
    let r := rlStep 900000 5 now req.ip st.globalRl
    let st2 : SystemState := ⟨r.2, st.contactRl⟩
    if !r.1 then
      .resp ⟨429, jStr "Too many requests, please try again later."⟩ [] 0 st2
    else
      routeDispatch cfg verifyOk sendOk now req st2

/-- The whole per-request pipeline: origin guard first (its rejection is
routed by the error middleware to the distinct 403 response,
src/server.js lines 229..231), then the rest of the middleware chain. -/
def app (cfg : Config) (verifyOk sendOk : Bool) (now : Nat)
    (req : Request) (st : SystemState) : AppResult :=
  if corsAllows req.origin then
    appAfterCors cfg verifyOk sendOk now req st
  else
    .resp ⟨403, jObj [("error", jStr "CORS blocked")]⟩ [] 0 st

/- ------------------------------------------------------------------
Concrete fixtures used by several claims.
------------------------------------------------------------------ -/

/-- A complete SMTP configuration. -/
def cfgOk : Config :=
  ⟨some "smtp.example.com", some "smtpuser", some "smtppass",
   some "ops@example.com", some "noreply@example.com"⟩

/-- A configuration with every SMTP variable absent. -/
def cfgNone : Config := ⟨none, none, none, none, none⟩

/-- The valid submission of the end-to-end spec scenario. -/
def bodyOk : JVal :=
  jObj [("name", jStr "Jo Smith"), ("email", jStr "jo@example.com"),
        ("url", jStr "https://app.example.com"), ("message", jStr "Please review")]

/-- Fresh limiter state. -/
def st0 : SystemState := ⟨[], []⟩

/- ------------------------------------------------------------------
Helper lemmas about the string models.
------------------------------------------------------------------ -/

theorem dropWhile_self (p : α → Bool) (l : List α) :
    (l.dropWhile p).dropWhile p = l.dropWhile p := by
  induction l with
  | nil => rfl
  | cons a t ih =>
    cases h : p a with
    | true => simp [List.dropWhile_cons, h, ih]
    | false => simp [List.dropWhile_cons, h]

theorem head_dropWhile_false (p : α → Bool) (l : List α) (a : α)
    (h : (l.dropWhile p).head? = some a) : p a = false := by
  induction l with
  | nil => simp [List.dropWhile] at h
  | cons b t ih =>
    cases hb : p b with
    | true => rw [List.dropWhile_cons_of_pos hb] at h; exact ih h
    | false =>
      rw [List.dropWhile_cons_of_neg (by simp [hb])] at h
      simp only [List.head?_cons, Option.some.injEq] at h
      rw [← h]; exact hb

theorem len_dropWhile_le (p : α → Bool) (l : List α) :
    (l.dropWhile p).length ≤ l.length := by
  induction l with
  | nil => simp [List.dropWhile]
  | cons a t ih =>
    cases h : p a with
    | true => rw [List.dropWhile_cons_of_pos h]; exact le_trans ih (by simp)
    | false => rw [List.dropWhile_cons_of_neg (by simp [h])]

theorem trimList_idem (l : List Char) : trimList (trimList l) = trimList l := by
  unfold trimList
  set u := l.dropWhile isWsChar with hu
  set x := (u.reverse.dropWhile isWsChar).reverse with hx
  have hpref : x ++ (u.reverse.takeWhile isWsChar).reverse = u := by
    rw [hx, ← List.reverse_append, List.takeWhile_append_dropWhile, List.reverse_reverse]
  have hA : x.dropWhile isWsChar = x := by
    cases hxc : x with
    | nil => rfl
    | cons a x2 =>
      have hhead : u.head? = some a := by rw [← hpref, hxc]; rfl
      have ha : isWsChar a = false :=
        head_dropWhile_false isWsChar l a (by rw [← hu]; exact hhead)
      exact List.dropWhile_cons_of_neg (by simp [ha])
  rw [hA, hx, List.reverse_reverse, dropWhile_self]

theorem length_trimList_le (l : List Char) : (trimList l).length ≤ l.length := by
  unfold trimList
  calc ((l.dropWhile isWsChar).reverse.dropWhile isWsChar).reverse.length
      = ((l.dropWhile isWsChar).reverse.dropWhile isWsChar).length := by
        rw [List.length_reverse]
    _ ≤ (l.dropWhile isWsChar).reverse.length := len_dropWhile_le _ _
    _ = (l.dropWhile isWsChar).length := by rw [List.length_reverse]
    _ ≤ l.length := len_dropWhile_le _ _

theorem lookup_mem {l : List (Char × Char)} {c d : Char}
    (h : l.lookup c = some d) : (c, d) ∈ l := by
  induction l with
  | nil => simp [List.lookup] at h
  | cons p t ih =>
    rw [show p = (p.1, p.2) from rfl, List.lookup] at h
    by_cases hc : c == p.1
    · simp [hc] at h
      have hc2 : c = p.1 := eq_of_beq hc
      have hp : (c, d) = p := by rw [hc2, ← h]
      rw [hp]
      exact List.mem_cons_self p t
    · simp [hc] at h
      exact List.mem_cons_of_mem p (ih h)

theorem lowerChar_ws (c : Char) : isWsChar (lowerChar c) = isWsChar c := by
  unfold lowerChar
  cases h : upperLower.lookup c with
  | none => rfl
  | some d =>
    have hm : (c, d) ∈ upperLower := lookup_mem h
    simp only [Option.getD_some]
    fin_cases hm <;> decide

theorem lowerChar_idem (c : Char) : lowerChar (lowerChar c) = lowerChar c := by
  unfold lowerChar
  cases h : upperLower.lookup c with
  | none => simp [h]
  | some d =>
    have hm : (c, d) ∈ upperLower := lookup_mem h
    simp only [Option.getD_some]
    fin_cases hm <;> decide

theorem dropWhile_map_lower (l : List Char) :
    (l.map lowerChar).dropWhile isWsChar = (l.dropWhile isWsChar).map lowerChar := by
  rw [List.dropWhile_map]
  rw [show (isWsChar ∘ lowerChar) = isWsChar from funext fun c => lowerChar_ws c]

theorem trimList_map_lower (l : List Char) :
    trimList (l.map lowerChar) = (trimList l).map lowerChar := by
  unfold trimList
  rw [dropWhile_map_lower, ← List.map_reverse, dropWhile_map_lower, List.map_reverse]

theorem jsTrim_idem (s : String) : jsTrim (jsTrim s) = jsTrim s := by
  unfold jsTrim
  exact congrArg String.mk (trimList_idem s.data)

theorem sanitizeName_trim_eq (s : String) (h : s.length ≤ 100) :
    sanitizeName s = ⟨trimList s.data⟩ := by
  have h1 : (trimList s.data).length ≤ 100 := le_trans (length_trimList_le _) h
  unfold sanitizeName jsSubstr0 jsTrim
  exact congrArg String.mk (List.take_of_length_le h1)

theorem sanitizeMsg_trim_eq (s : String) (h : s.length ≤ 500) :
    jsSubstr0 500 (jsTrim s) = ⟨trimList s.data⟩ := by
  have h1 : (trimList s.data).length ≤ 500 := le_trans (length_trimList_le _) h
  unfold jsSubstr0 jsTrim
  exact congrArg String.mk (List.take_of_length_le h1)

/-- Chaining of ordinary step results: a throw propagates, anything else
is ordinary. -/
theorem vthen_ordinary (r : VRes) (k : Unit → VRes)
    (h1 : isOrdinary r = true) (h2 : isOrdinary (k ()) = true) :
    isOrdinary (vthen r k) = true := by
  cases r <;> simp_all [vthen]

theorem nameStepAlt_ordinary (v : Option JVal) :
    isOrdinary (nameStepAlt v) = true := by
  unfold nameStepAlt
  split
  · rfl
  · split
    · split_ifs <;> rfl
    · rfl

theorem msgStepAlt_ordinary (fm : JVal) : isOrdinary (msgStepAlt fm) = true := by
  unfold msgStepAlt
  split
  · split_ifs <;> rfl
  · rfl

/-- The validator of the unnamed variant never throws: every check either
responds with a field-specific 400 or passes. -/
theorem validateAlt_total (b : JVal) :
    isOrdinary (validateContactRequestAlt b) = true := by
  unfold validateContactRequestAlt
  apply vthen_ordinary _ _ (nameStepAlt_ordinary _)
  apply vthen_ordinary
  · split <;> rfl
  apply vthen_ordinary
  · split <;> rfl
  exact msgStepAlt_ordinary _

/- ------------------------------------------------------------------
Concrete requests used by individual claims.
------------------------------------------------------------------ -/

/-- The end-to-end scenario request of C3. -/
def reqC3 : Request :=
  ⟨"POST", "/contact", some "https://jalwan.app", some "198.51.100.7",
   "198.51.100.7", some "UnitTest", bodyOk⟩

/-- A body whose `name` is a number (C4). -/
def body4 : JVal :=
  jObj [("name", jNum 123), ("email", jStr "jo@example.com"),
        ("url", jStr "https://example.com")]

/-- The request carrying `body4`. -/
def req4 : Request := ⟨"POST", "/contact", none, none, "198.51.100.23", none, body4⟩

/-- A body with an empty `message` and a nonempty `description` (C7). -/
def body7 : JVal :=
  jObj [("name", jStr "Jo Smith"), ("email", jStr "jo@example.com"),
        ("url", jStr "https://app.example.com"), ("message", jStr ""),
        ("description", jStr "From description")]

/-- The request carrying `body7`. -/
def req7 : Request := ⟨"POST", "/contact", none, none, "198.51.100.31", none, body7⟩

/-- A 101-character name whose trimmed form ends in whitespace after
truncation: `a`, 99 spaces, `b` (C10). -/
def c10input : String := ⟨'a' :: (List.replicate 99 ' ' ++ ['b'])⟩

/- ------------------------------------------------------------------
Claim C1.
------------------------------------------------------------------ -/

/-- C1: the URL validator accepts `https://example.com`, rejects the
`ftp` scheme, rejects `localhost` (case-insensitively, on any scheme and
port), the dotted IPv4 loopback, and the RFC1918 samples, and rejects
unparseable input — but ACCEPTS the IPv6 loopback `http://[::1]/` in both
variants, because the WHATWG `hostname` getter reports the bracketed form
`[::1]`, which the pattern `/^::1$/` can never match; the unnamed variant
additionally accepts `http://127.0.0.2`, as its loopback pattern is the
exact string `127.0.0.1`.  This refutes the claim's `::1` (and, for the
unnamed variant, `127.x.x.x`) exclusions and confirms the rest. -/
theorem c1_url_validation :
    isValidUrlStr "https://example.com" = true ∧
    isValidUrlStr "ftp://example.com" = false ∧
    isValidUrlStr "http://localhost" = false ∧
    isValidUrlStr "https://LOCALHOST:3000/x" = false ∧
    isValidUrlStr "ftp://localhost" = false ∧
    isValidUrlStr "http://127.0.0.1" = false ∧
    isValidUrlStr "https://127.0.0.1" = false ∧
    isValidUrlStr "http://127.4.5.6" = false ∧
    isValidUrlStr "http://10.0.0.5" = false ∧
    isValidUrlStr "http://192.168.1.1" = false ∧
    isValidUrlStr "http://172.20.0.1" = false ∧
    isValidUrlStr "not a url" = false ∧
    isValidUrlStr "http://[::1]/" = true ∧
    isValidUrlStrAlt "http://[::1]/" = true ∧
    isValidUrlStrAlt "http://127.0.0.2" = true := by
  decide

/- ------------------------------------------------------------------
Claim C3.
------------------------------------------------------------------ -/

set_option maxRecDepth 8000 in
/-- C3: the valid submission `{name: "Jo Smith", email: "jo@example.com",
url: "https://app.example.com", message: "Please review"}`, with complete
mail configuration and a relay that succeeds, yields 200
`{success: true}`; exactly one message is handed to the relay, its
reply-to is `jo@example.com`, and its body contains the line
`Name: Jo Smith`. -/
theorem c3_end_to_end :
    statusOf (app cfgOk true true 1700000000000 reqC3 st0) = some 200 ∧
    bodyOf (app cfgOk true true 1700000000000 reqC3 st0) =
      some (jObj [("success", jBool true)]) ∧
    (sendsOf (app cfgOk true true 1700000000000 reqC3 st0)).map
      (fun m => m.replyTo) = ["jo@example.com"] ∧
    (sendsOf (app cfgOk true true 1700000000000 reqC3 st0)).map
      (fun m => memStr "Name: Jo Smith" (linesOf m.text)) = [true] := by
  exact ⟨rfl, rfl, rfl, rfl⟩

/- ------------------------------------------------------------------
Claim C4.
------------------------------------------------------------------ -/

/-- C4: the validator of `src/server.js` is NOT total: a truthy
non-string `name` (here the number `123`) reaches `name.trim()` and
throws; Express catches the synchronous throw and the outer error
middleware answers with the generic 500, not a field-specific 400 — no
mail activity occurs.  The unnamed variant's validator, which carries the
`typeof` guard, is total, witnessing the intent. -/
theorem c4_validator_totality :
    validateContactRequest body4 = VRes.vthrow ∧
    statusOf (app cfgOk true true 0 req4 st0) = some 500 ∧
    bodyOf (app cfgOk true true 0 req4 st0) =
      some (jObj [("error", jStr "Internal server error")]) ∧
    sendsOf (app cfgOk true true 0 req4 st0) = [] ∧
    netCallsOf (app cfgOk true true 0 req4 st0) = 0 ∧
    ∀ b : JVal, isOrdinary (validateContactRequestAlt b) = true := by
  exact ⟨rfl, rfl, rfl, rfl, rfl, validateAlt_total⟩

/- ------------------------------------------------------------------
Claim C7.
------------------------------------------------------------------ -/

set_option maxRecDepth 8000 in
/-- C7 counterexample: a body that CONTAINS a `message` field (the empty
string) nevertheless has its `description` value length-validated and
included in the outbound email: `message || description || ""` falls back
on any falsy message, not only on an absent one. -/
theorem c7_counterexample :
    getField body7 "message" = some (jStr "") ∧
    finalMessageOf body7 = jStr "From description" ∧
    (sendsOf (app cfgOk true true 0 req7 st0)).map
      (fun m => memStr "Message: From description" (linesOf m.text)) =
      [true] := by
  exact ⟨rfl, rfl, rfl⟩

/-- C7 as amended: the `description` value is used only when the
`message` field is absent OR falsy (empty); whenever the body contains a
truthy `message` value, that value is the one selected for validation and
inclusion. -/
theorem c7_amended (b v : JVal) (h1 : getField b "message" = some v)
    (h2 : truthy v = true) : finalMessageOf b = v := by
  unfold finalMessageOf
  rw [h1]
  simp [h2]

/-- Witness for the amended C7. -/
theorem c7_witness :
    finalMessageOf (jObj [("message", jStr "hi"), ("description", jStr "other")]) =
      jStr "hi" :=
  c7_amended _ _ rfl rfl

/- ------------------------------------------------------------------
Claim C10.
------------------------------------------------------------------ -/

/-- C10 counterexample: the sanitization transform is not idempotent.
For the 101-character name `a` + 99 spaces + `b`, the first application
trims nothing and truncates away the final `b`, leaving a value with 99
trailing spaces; the second application trims them, giving `"a"`. -/
theorem c10_counterexample :
    sanitizeName (sanitizeName c10input) ≠ sanitizeName c10input := by
  decide

/-- C10 as amended: sanitization is idempotent on every value whose raw
length is within the truncation bound (which validation guarantees for
the values actually sanitized: names of length at most 100 and messages
of length at most 500), and unconditionally for the email transform; it
is NOT idempotent on longer inputs, where truncation can expose trailing
whitespace. -/
theorem c10_amended :
    (∀ s : String, s.length ≤ 100 →
       sanitizeName (sanitizeName s) = sanitizeName s) ∧
    (∀ s : String, s.length ≤ 500 →
       sanitizeMsgStr (sanitizeMsgStr s) = sanitizeMsgStr s) ∧
    (∀ s : String, sanitizeEmail (sanitizeEmail s) = sanitizeEmail s) := by
  refine ⟨?_, ?_, ?_⟩
  · intro s h
    rw [sanitizeName_trim_eq s h]
    have h2 : (⟨trimList s.data⟩ : String).length ≤ 100 :=
      le_trans (length_trimList_le _) h
    rw [sanitizeName_trim_eq _ h2]
    show (⟨trimList (trimList s.data)⟩ : String) = _
    exact congrArg String.mk (trimList_idem _)
  · intro s h
    by_cases hs : s = ""
    · rw [hs]; rfl
    · have e1 : sanitizeMsgStr s = ⟨trimList s.data⟩ := by
        unfold sanitizeMsgStr
        rw [if_pos (by simpa using hs)]
        exact sanitizeMsg_trim_eq s h
      rw [e1]
      by_cases ht : (⟨trimList s.data⟩ : String) = ""
      · rw [ht]; rfl
      · have h2 : (⟨trimList s.data⟩ : String).length ≤ 500 :=
          le_trans (length_trimList_le _) h
        unfold sanitizeMsgStr
        rw [if_pos (by simpa using ht), sanitizeMsg_trim_eq _ h2]
        show (⟨trimList (trimList s.data)⟩ : String) = _
        exact congrArg String.mk (trimList_idem _)
  · intro s
    show jsToLower (jsTrim (jsToLower (jsTrim s))) = jsToLower (jsTrim s)
    refine congrArg String.mk ?_
    show (trimList ((trimList s.data).map lowerChar)).map lowerChar =
      (trimList s.data).map lowerChar
    rw [trimList_map_lower, trimList_idem, List.map_map,
      show lowerChar ∘ lowerChar = lowerChar from funext lowerChar_idem]

/- ------------------------------------------------------------------
Claim C8.
------------------------------------------------------------------ -/

/-- C8: the origin guard permits a request whose declared origin is
absent or on the allow-list (the pipeline proceeds unchanged past the
guard), and rejects any other origin with the distinct 403 response
(`CORS blocked`, not the generic 500) before any contact-pipeline
processing: no relay message, no relay call, and the limiter state is
untouched. -/
theorem c8_origin_guard (cfg : Config) (vOk sOk : Bool) (now : Nat)
    (req : Request) (st : SystemState) :
    (req.origin = none →
       app cfg vOk sOk now req st = appAfterCors cfg vOk sOk now req st) ∧
    (∀ o, req.origin = some o → memStr o allowedOrigins = true →
       app cfg vOk sOk now req st = appAfterCors cfg vOk sOk now req st) ∧
    (∀ o, req.origin = some o → memStr o allowedOrigins = false →
       app cfg vOk sOk now req st =
         .resp ⟨403, jObj [("error", jStr "CORS blocked")]⟩ [] 0 st) := by
  refine ⟨?_, ?_, ?_⟩
  · intro h
    simp [app, corsAllows, h]
  · intro o ho hmem
    simp [app, corsAllows, ho, hmem]
  · intro o ho hmem
    simp [app, corsAllows, ho, hmem]

/-- Witness for C8: a request from an origin outside the allow-list is
answered 403 with no processing. -/
theorem c8_witness :
    app cfgOk true true 0
        ⟨"POST", "/contact", some "https://evil.example", none, "198.51.100.60",
         none, bodyOk⟩ st0 =
      .resp ⟨403, jObj [("error", jStr "CORS blocked")]⟩ [] 0 st0 :=
  (c8_origin_guard cfgOk true true 0 _ st0).2.2 "https://evil.example" rfl (by decide)

/- ------------------------------------------------------------------
Claim C5.
------------------------------------------------------------------ -/

/-- A plain health-check request. -/
def reqH : Request := ⟨"GET", "/health", none, none, "203.0.113.50", none, jNull⟩

/-- C5 counterexample: in `src/server.js` the health body's timestamp
field is named `time`, not `timestamp`: the response body has no
`timestamp` key, refuting the claimed body shape
`{status:"ok", timestamp}`. -/
theorem c5_counterexample :
    statusOf (app cfgOk true true 42 reqH st0) = some 200 ∧
    bodyOf (app cfgOk true true 42 reqH st0) = some (healthBody 42) ∧
    getField (healthBody 42) "timestamp" = none ∧
    getField (healthBody 42) "time" = some (jStr (isoString 42)) :=
  ⟨rfl, rfl, rfl, rfl⟩

/-- C5 as amended: every GET `/health` call whose origin passes the
(global) origin guard is answered 200 with `{status: "ok"}` plus the
current timestamp — under the key `time` in `src/server.js` and
`timestamp` in the unnamed variant — and is exempt from both rate
limiters regardless of call volume: the response is the same for every
limiter state and the limiter state is returned unchanged. -/
theorem c5_amended (cfg : Config) (vOk sOk : Bool) (now : Nat) (req : Request)
    (st : SystemState) (h1 : req.method = "GET") (h2 : req.path = "/health")
    (h3 : corsAllows req.origin = true) :
    app cfg vOk sOk now req st = .resp ⟨200, healthBody now⟩ [] 0 st ∧
    getField (healthBody now) "status" = some (jStr "ok") ∧
    getField (healthBody now) "time" = some (jStr (isoString now)) ∧
    getField (healthBodyAlt now) "timestamp" = some (jStr (isoString now)) := by
  refine ⟨?_, rfl, rfl, rfl⟩
  simp [app, appAfterCors, routeDispatch, h1, h2, h3]

/-- Witness for the amended C5: even from a saturated limiter state the
health endpoint answers 200 and leaves the state unchanged. -/
theorem c5_witness :
    app cfgOk true true 7 reqH
        ⟨[("203.0.113.50", 0, 5)], [("203.0.113.50", 0, 3)]⟩ =
      .resp ⟨200, healthBody 7⟩ [] 0
        ⟨[("203.0.113.50", 0, 5)], [("203.0.113.50", 0, 3)]⟩ ∧
    getField (healthBody 7) "status" = some (jStr "ok") ∧
    getField (healthBody 7) "time" = some (jStr (isoString 7)) ∧
    getField (healthBodyAlt 7) "timestamp" = some (jStr (isoString 7)) :=
  c5_amended cfgOk true true 7 reqH _ rfl rfl rfl

/- ------------------------------------------------------------------
Claim C9.
------------------------------------------------------------------ -/

/-- C9: on the `/contact` route (once the contact limiter admits the
request), a missing name, a name of trimmed length below 2, or a name of
raw length above 100 is answered 400 `Invalid name` with no relay message
and no relay call; and any name of trimmed length at least 2 and raw
length at most 100 passes the name check. -/
theorem c9_name_validation :
    (∀ (cfg : Config) (vOk sOk : Bool) (now : Nat) (req : Request)
       (st : SystemState),
       (rlStep 3600000 3 now (getClientIp req) st.contactRl).1 = true →
       (getField (normBody req.body) "name" = none ∨
         ∃ s, getField (normBody req.body) "name" = some (jStr s) ∧
           ((jsTrim s).length < 2 ∨ s.length > 100)) →
       contactRoute cfg vOk sOk now req st =
         .resp ⟨400, jObj [("error", jStr "Invalid name")]⟩ [] 0
           ⟨st.globalRl, (rlStep 3600000 3 now (getClientIp req) st.contactRl).2⟩) ∧
    (∀ s : String, 2 ≤ (jsTrim s).length → s.length ≤ 100 →
       nameStep (some (jStr s)) = VRes.vok) := by
  constructor
  · intro cfg vOk sOk now req st hrl hbad
    have hv : validateContactRequest req.body = VRes.vfail "Invalid name" := by
      simp only [validateContactRequest]
      rcases hbad with h | ⟨s, hs, hcond⟩
      · rw [h]
        rfl
      · rw [hs]
        by_cases hse : s = ""
        · subst hse
          rfl
        · have ht : truthyO (some (jStr s)) = true := by
            simp [truthyO, truthy, hse]
          have hc : ((jsTrim s).length < 2 || s.length > 100) = true := by
            rcases hcond with h | h <;> simp [h]
          unfold vthen nameStep
          rw [ht]
          simp only [Bool.true_eq_false, if_false, hc, if_true]
    simp only [contactRoute, hrl, hv, Bool.not_true, Bool.false_eq_true, if_false]
  · intro s h1 h2
    have hse : s ≠ "" := by
      intro e
      subst e
      revert h1
      decide
    have ht : truthyO (some (jStr s)) = true := by
      simp [truthyO, truthy, hse]
    have hc : ((jsTrim s).length < 2 || s.length > 100) = false := by
      have g1 : ¬ (jsTrim s).length < 2 := by omega
      have g2 : ¬ s.length > 100 := by omega
      simp [g1, g2]
    unfold nameStep
    rw [ht]
    simp only [Bool.true_eq_false, if_false, hc]
    rfl

/-- Witness for C9: a one-letter name is rejected 400 with no relay
activity; the name `Jo` passes the name check. -/
theorem c9_witness :
    contactRoute cfgOk true true 5
        ⟨"POST", "/contact", none, none, "198.51.100.70", none,
         jObj [("name", jStr "x")]⟩ st0 =
      .resp ⟨400, jObj [("error", jStr "Invalid name")]⟩ [] 0
        ⟨[], [("198.51.100.70", 5, 1)]⟩ ∧
    nameStep (some (jStr "Jo")) = VRes.vok :=
  ⟨c9_name_validation.1 cfgOk true true 5 _ st0 rfl
     (Or.inr ⟨"x", rfl, Or.inl (by decide)⟩),
   c9_name_validation.2 "Jo" (by decide) (by decide)⟩

/-- Witness for the amended C10. -/
theorem c10_witness :
    sanitizeName (sanitizeName " Jo Smith ") = sanitizeName " Jo Smith " ∧
    sanitizeMsgStr (sanitizeMsgStr " Please review ") =
      sanitizeMsgStr " Please review " ∧
    sanitizeEmail (sanitizeEmail " Jo@Example.COM ") =
      sanitizeEmail " Jo@Example.COM " :=
  ⟨c10_amended.1 " Jo Smith " (by decide),
   c10_amended.2.1 " Please review " (by decide),
   c10_amended.2.2 " Jo@Example.COM "⟩


/- ------------------------------------------------------------------
Claim C2.
------------------------------------------------------------------ -/

/-- The body's selected message value is a string or falsy, so the
handler's sanitization step (`finalMessage.trim()`) cannot throw. -/
def msgSanitizable (b : JVal) : Bool :=
  match finalMessageOf b with
  | jStr _ => true
  | w => !truthy w

/-- A body that passes validation with a truthy non-string message. -/
def body2 : JVal :=
  jObj [("name", jStr "Jo"), ("email", jStr "a@b.com"),
        ("url", jStr "https://example.com"), ("message", jNum 7)]

/-- The request carrying `body2`. -/
def req2 : Request := ⟨"POST", "/contact", none, none, "198.51.100.44", none, body2⟩

/-- A request with the well-formed body, for the C2 witness. -/
def req2b : Request := ⟨"POST", "/contact", none, none, "198.51.100.45", none, bodyOk⟩

set_option maxRecDepth 8000 in
/-- C2 counterexample: with every SMTP variable absent, the body
`{name: "Jo", email: "a@b.com", url: "https://example.com", message: 7}`
passes validation (a truthy non-string message skips the length check,
since `(7).length` is `undefined`), but the handler then throws at
`finalMessage.trim()` BEFORE the configuration check: the async handler's
rejected promise is never caught by Express 4, so the caller gets no
response at all rather than the claimed 500 configuration error. -/
theorem c2_counterexample :
    requiredConfigMissing cfgNone = true ∧
    validateContactRequest body2 = VRes.vok ∧
    app cfgNone true true 0 req2 st0 =
      .crashed ⟨[("198.51.100.44", 0, 1)], [("198.51.100.44", 0, 1)]⟩ :=
  ⟨rfl, rfl, rfl⟩

/-- C2 as amended: when any required mail setting is absent, every
request that reaches the mail stage AND whose selected message value is a
string or falsy is answered with the 500 configuration-error response and
an empty relay trace; and - with no proviso - no request of any shape
causes a single relay call or message while the configuration is
incomplete (a truthy non-string message makes the handler throw before
responding, which still performs no relay call). -/
theorem c2_amended (cfg : Config) (h : requiredConfigMissing cfg = true) :
    (∀ (vOk sOk : Bool) (now : Nat) (req : Request) (st : SystemState),
       msgSanitizable req.body = true →
       mailStage cfg vOk sOk now req st =
         .resp ⟨500, jObj [("error", jStr "Email not configured")]⟩ [] 0 st) ∧
    (∀ (vOk sOk : Bool) (now : Nat) (req : Request) (st : SystemState),
       sendsOf (app cfg vOk sOk now req st) = [] ∧
       netCallsOf (app cfg vOk sOk now req st) = 0) := by
  have hmail : ∀ (vOk sOk : Bool) (now : Nat) (req : Request) (st : SystemState),
      sendsOf (mailStage cfg vOk sOk now req st) = [] ∧
      netCallsOf (mailStage cfg vOk sOk now req st) = 0 := by
    intro vOk sOk now req st
    simp only [mailStage]
    rcases hms : msgSanitize (finalMessageOf req.body) with _ | sm
    · simp [sendsOf, netCallsOf]
    · simp [h, sendsOf, netCallsOf]
  constructor
  · intro vOk sOk now req st hsan
    unfold msgSanitizable at hsan
    rcases hfm : finalMessageOf req.body with _ | b2 | n | s | l | fs
    · simp [mailStage, msgSanitize, hfm, truthy, h]
    · rw [hfm] at hsan
      simp only [truthy] at hsan
      simp at hsan
      simp [mailStage, msgSanitize, hfm, truthy, hsan, h]
    · rw [hfm] at hsan
      simp only [truthy] at hsan
      simp at hsan
      simp [mailStage, msgSanitize, hfm, truthy, hsan, h]
    · by_cases hs : s = ""
      · simp [mailStage, msgSanitize, hfm, truthy, hs, h]
      · simp [mailStage, msgSanitize, hfm, truthy, hs, h]
    · rw [hfm] at hsan
      simp [truthy] at hsan
    · rw [hfm] at hsan
      simp [truthy] at hsan
  · intro vOk sOk now req st
    simp only [app, appAfterCors, routeDispatch, contactRoute]
    repeat' split
    all_goals
      first
        | exact hmail _ _ _ _ _
        | simp [sendsOf, netCallsOf]

/-- Witness for the amended C2: with no SMTP configuration, a valid
submission is answered 500 `Email not configured` and the relay is never
contacted. -/
theorem c2_witness :
    mailStage cfgNone true true 3 req2b st0 =
      .resp ⟨500, jObj [("error", jStr "Email not configured")]⟩ [] 0 st0 ∧
    sendsOf (app cfgNone true true 3 req2b st0) = [] ∧
    netCallsOf (app cfgNone true true 3 req2b st0) = 0 :=
  ⟨(c2_amended cfgNone rfl).1 true true 3 req2b st0 rfl,
   ((c2_amended cfgNone rfl).2 true true 3 req2b st0).1,
   ((c2_amended cfgNone rfl).2 true true 3 req2b st0).2⟩

/- ------------------------------------------------------------------
Claim C6.
------------------------------------------------------------------ -/

/-- The repeated contact submission used for the C6 pipeline run. -/
def reqRL : Request := ⟨"POST", "/contact", none, none, "203.0.113.9", none, bodyOk⟩

/-- First request of the C6 run (t = 0 ms). -/
def rl1 : AppResult := app cfgOk true true 0 reqRL st0

/-- Second request (t = 1,000,000 ms, within the contact window). -/
def rl2 : AppResult := app cfgOk true true 1000000 reqRL (stateOf rl1)

/-- Third request (t = 2,000,000 ms). -/
def rl3 : AppResult := app cfgOk true true 2000000 reqRL (stateOf rl2)

/-- Fourth request (t = 3,000,000 ms, still within the 60-minute
window). -/
def rl4 : AppResult := app cfgOk true true 3000000 reqRL (stateOf rl3)

/-- Fifth request (t = 3,600,000 ms: the window has elapsed). -/
def rl5 : AppResult := app cfgOk true true 3600000 reqRL (stateOf rl4)

set_option maxRecDepth 8000 in
/-- C6: under the contact limiter (window 3,600,000 ms, max 3), for every
key the first three requests of a window are admitted, the fourth within
the window is denied, and a request after the window has elapsed is
admitted again with a fresh window; and in the full pipeline the fourth
same-key POST within the window is answered 429 with the contact
limiter's message while the post-window request proceeds through
validation and the mail stage to 200 `{success: true}`. -/
theorem c6_rate_limit (key : String) (t1 t2 t3 t4 t5 : Nat)
    (h12 : t1 ≤ t2) (h23 : t2 ≤ t3) (h34 : t3 ≤ t4)
    (hw : t4 < t1 + 3600000) (h5 : t1 + 3600000 ≤ t5) :
    (rlStep 3600000 3 t1 key [] = (true, [(key, t1, 1)]) ∧
     rlStep 3600000 3 t2 key [(key, t1, 1)] = (true, [(key, t1, 2)]) ∧
     rlStep 3600000 3 t3 key [(key, t1, 2)] = (true, [(key, t1, 3)]) ∧
     rlStep 3600000 3 t4 key [(key, t1, 3)] = (false, [(key, t1, 4)]) ∧
     rlStep 3600000 3 t5 key [(key, t1, 4)] = (true, [(key, t5, 1)])) ∧
    (statusOf rl1 = some 200 ∧ statusOf rl2 = some 200 ∧
     statusOf rl3 = some 200 ∧ statusOf rl4 = some 429 ∧
     bodyOf rl4 = some (jStr "Too many contact requests, try again in 1 hour") ∧
     statusOf rl5 = some 200 ∧
     bodyOf rl5 = some (jObj [("success", jBool true)])) := by
  have hn2 : ¬(t1 + 3600000 ≤ t2) := by omega
  have hn3 : ¬(t1 + 3600000 ≤ t3) := by omega
  have hn4 : ¬(t1 + 3600000 ≤ t4) := by omega
  refine ⟨⟨?_, ?_, ?_, ?_, ?_⟩, rfl, rfl, rfl, rfl, rfl, rfl, rfl⟩
  · simp [rlStep, rlFind, rlUpdate]
  · simp [rlStep, rlFind, rlUpdate, hn2]
  · simp [rlStep, rlFind, rlUpdate, hn3]
  · simp [rlStep, rlFind, rlUpdate, hn4]
  · simp [rlStep, rlFind, rlUpdate, h5]

/-- Witness for C6: with key `k` and hit times 0, 1, 2, 3 ms, the fourth
request inside the window is denied. -/
theorem c6_witness :
    rlStep 3600000 3 3 "k" [("k", 0, 3)] = (false, [("k", 0, 4)]) :=
  ((c6_rate_limit "k" 0 1 2 3 3600000 (by omega) (by omega) (by omega)
      (by omega) (by omega)).1).2.2.2.1

end ContactApi
